import Mathlib

/-!
Verification of the installation-directory resolution logic of the gitrs
build script (build.rs).  The script resolves every GNU installation
directory variable with override-then-default precedence, deriving
defaults from the resolved values of parent keys, and emits each resolved
variable as a cargo rustc-env line.  The embedding below mirrors build.rs
definition by definition; the environment is a function from variable
name to optional string (env::var(key).ok()), and the observable effects
(the sequence of environment lookups and the sequence of emissions) are
threaded through a state record.  A panic of the script (a missing or
unparseable pointer width, or an absent map key) is modelled as none.
-/

set_option autoImplicit false

namespace Gitrs

/-- Name of the environment variable provided by Cargo to specify the CPU
pointer width. -/
def CARGO_CFG_TARGET_POINTER_WIDTH : String := "CARGO_CFG_TARGET_POINTER_WIDTH"

/-- The default root used in constructing the path to the different
installation directories. -/
def DEFAULT_PREFIX : String := "/usr/local"

/-- Variable naming the root used in constructing the default values for
other installation directories. -/
def PREFIX : String := "PREFIX"

/-- Variable naming the root used in constructing the default values for
executable installation directories. -/
def EXEC_PREFIX : String := "EXEC_PREFIX"

/-- Variable for the directory for executable programs users can run. -/
def BINDIR : String := "BINDIR"

/-- Variable for the directory for idiosyncratic read-only
architecture-independent data files. -/
def DATADIR : String := "DATADIR"

/-- Variable for the root of the read-only architecture-independent data
file tree. -/
def DATAROOTDIR : String := "DATAROOTDIR"

/-- Variable for the directory for documentation files. -/
def DOCDIR : String := "DOCDIR"

/-- Variable for the directory for C header files. -/
def INCLUDEDIR : String := "INCLUDEDIR"

/-- Variable for the directory for Info files. -/
def INFODIR : String := "INFODIR"

/-- Variable for the directory for programs run by other programs. -/
def LIBEXECDIR : String := "LIBEXECDIR"

/-- Variable for the directory for object files and libraries. -/
def LIBDIR : String := "LIBDIR"

/-- Variable for the directory for modifiable single-machine data. -/
def LOCALSTATEDIR : String := "LOCALSTATEDIR"

/-- Variable for the top-level directory for man pages. -/
def MANDIR : String := "MANDIR"

/-- Variable for the directory for modifiable single-machine data that
need not persist. -/
def RUNSTATEDIR : String := "RUNSTATEDIR"

/-- Variable for the directory for programs for system administrators. -/
def SBINDIR : String := "SBINDIR"

/-- Variable for the directory for modifiable architecture-independent
data. -/
def SHAREDSTATEDIR : String := "SHAREDSTATEDIR"

/-- Variable for the directory for read-only single-machine data. -/
def SYSCONFDIR : String := "SYSCONFDIR"

/-- List of directories to be installed under the provided root. -/
def PREFIX_DIRS : List (String × String) :=
  [(DATAROOTDIR, "/share"), (INCLUDEDIR, "/include"), (LOCALSTATEDIR, "/var"),
   (SHAREDSTATEDIR, "/var/lib"), (SYSCONFDIR, "/etc")]

/-- List of directories derived from the resolved data root. -/
def DATA_DIRS : List (String × String) :=
  [(DOCDIR, "/doc"), (INFODIR, "/info"), (MANDIR, "/man")]

/-- List of directories to be installed under the executable root. -/
def EXEC_DIRS : List (String × String) :=
  [(BINDIR, "/bin"), (LIBEXECDIR, "/libexec"), (SBINDIR, "/sbin")]

/-- List of library directories which are CPU pointer size dependent. -/
def LIB_DIRS : List (String × String) :=
  [(LIBDIR, "/lib")]

/-- List of directories not impacted by the provided root. -/
def ROOT_DIRS : List (String × String) :=
  [(RUNSTATEDIR, "/run")]

/-- Data structure to store the key name and value of an environment
variable. -/
structure EnvVar where
  key : String
  value : Option String
  deriving Repr, DecidableEq

/-- Observable effects of the build script: the sequence of environment
lookups performed (oldest first) and the sequence of cargo rustc-env
emissions (oldest first). -/
structure BuildState where
  trace : List String
  emitted : List EnvVar
  deriving Repr, DecidableEq

/-- Get the environment variable with provided key name
(env::var(key).ok()), recording the lookup in the trace. -/
def EnvVar.get (env : String → Option String) (st : BuildState) (key : String) :
    EnvVar × BuildState :=
  (⟨key, env key⟩, ⟨st.trace ++ [key], st.emitted⟩)

/-- Set the value of the environment variable when its current value is
none. -/
def EnvVar.or (self : EnvVar) (value : String) : EnvVar :=
  match self.value with
  | some _ => self
  | none => ⟨self.key, some value⟩

/-- Set the value of the environment variable, from another variable, when
its current value is none. -/
def EnvVar.or_from (self : EnvVar) (other : EnvVar) : EnvVar :=
  match self.value with
  | some _ => self
  | none => ⟨self.key, other.value⟩

/-- Rendering of an EnvVar by its Display implementation. -/
def EnvVar.display (v : EnvVar) : String :=
  match v.value with
  | some x => v.key ++ "=" ++ x
  | none => v.key ++ "="

/-- Emit a cargo rustc-env line for the variable (the cargo_env macro of
build.rs). -/
def cargoEnv (st : BuildState) (v : EnvVar) : BuildState :=
  ⟨st.trace, st.emitted ++ [v]⟩

/-- Insert into the directory map (HashMap::insert; the newest binding
wins on lookup). -/
def mapInsert (dir : List (String × EnvVar)) (k : String) (v : EnvVar) :
    List (String × EnvVar) :=
  (k, v) :: dir

/-- Read the directory map (the HashMap indexing dir[k], which panics when
the key is absent — modelled as none). -/
def mapIndex (dir : List (String × EnvVar)) (k : String) : Option EnvVar :=
  (dir.find? (fun p => p.1 == k)).map (fun p => p.2)

/-- Split an optional leading sign from the characters of a numeric
literal. -/
def splitSign : List Char → Int × List Char
  | '+' :: rest => (1, rest)
  | '-' :: rest => (-1, rest)
  | cs => (1, cs)

/-- Value of a list of decimal digit characters. -/
def digitsToNat (cs : List Char) : Nat :=
  cs.foldl (fun a c => a * 10 + (c.toNat - 48)) 0

/-- Integer denoted by a decimal string: an optional sign followed by one
or more ASCII digits, with unbounded range. -/
def strIntValue (s : String) : Option Int :=
  match splitSign s.data with
  | (sign, ds) =>
    if ds ≠ [] ∧ ds.all Char.isDigit then some (sign * (digitsToNat ds : Int))
    else none

/-- Models str::parse::<i32> from build.rs: the syntax of strIntValue, and
the signed value must fit in 32 bits, otherwise Err by overflow. -/
def parseI32 (s : String) : Option Int :=
  (strIntValue s).bind fun v =>
    if -2147483648 ≤ v ∧ v ≤ 2147483647 then some v else none

/-- Body of the for loops of install_dirs that insert a resolved directory
into the map and then emit it:
dir.insert(k, EnvVar::get(k).or(default(v))); cargo_env!(dir[k]). -/
def insertEmitLoop (env : String → Option String) (defaultOf : String → String) :
    List (String × String) → List (String × EnvVar) × BuildState →
      Option (List (String × EnvVar) × BuildState)
  | [], acc => some acc
  | kv :: rest, (dir, st) =>
    match EnvVar.get env st kv.1 with
    | (g, st1) =>
      let dir1 := mapInsert dir kv.1 (EnvVar.or g (defaultOf kv.2))
      match mapIndex dir1 kv.1 with
      | none => none
      | some dv => insertEmitLoop env defaultOf rest (dir1, cargoEnv st1 dv)

/-- Body of the for loops of install_dirs that only emit:
cargo_env!(EnvVar::get(k).or(default(v))). -/
def emitLoop (env : String → Option String) (defaultOf : String → String) :
    List (String × String) → BuildState → BuildState
  | [], st => st
  | kv :: rest, st =>
    match EnvVar.get env st kv.1 with
    | (g, st1) =>
      emitLoop env defaultOf rest (cargoEnv st1 (EnvVar.or g (defaultOf kv.2)))

/-- Shallow embedding of install_dirs from build.rs, statement by
statement: resolve every installation directory with
override-then-default precedence (derived defaults always read the
already-resolved parent value) and emit each resolved variable as a
cargo rustc-env line.  A panic of the script — the pointer width missing
from the environment, the pointer width not parsing as an i32, or an
absent map key — is modelled as none. -/
def install_dirs (env : String → Option String) : Option BuildState :=
  let s0 : BuildState := ⟨[], []⟩
  let g1 := EnvVar.get env s0 PREFIX
  let dir0 := mapInsert [] PREFIX (EnvVar.or g1.1 DEFAULT_PREFIX)
  let g2 := EnvVar.get env g1.2 EXEC_PREFIX
  match mapIndex dir0 PREFIX with
  | none => none
  | some pv =>
  let dir1 := mapInsert dir0 EXEC_PREFIX (EnvVar.or_from g2.1 pv)
  let g3 := EnvVar.get env g2.2 CARGO_CFG_TARGET_POINTER_WIDTH
  match g3.1.value with
  | none => none
  | some x =>
  match parseI32 x with
  | none => none
  | some n =>
  let qual := if 64 ≤ n then x else ""
  match mapIndex dir1 PREFIX with
  | none => none
  | some dp =>
  let s4 := cargoEnv g3.2 dp
  match mapIndex dir1 EXEC_PREFIX with
  | none => none
  | some de =>
  let s5 := cargoEnv s4 de
  match insertEmitLoop env (fun v => v) ROOT_DIRS (dir1, s5) with
  | none => none
  | some r6 =>
  match mapIndex r6.1 PREFIX with
  | none => none
  | some pfx0 =>
  match pfx0.value with
  | none => none
  | some pfxVal =>
  match mapIndex r6.1 EXEC_PREFIX with
  | none => none
  | some ep0 =>
  match ep0.value with
  | none => none
  | some epVal =>
  match insertEmitLoop env (fun v => pfxVal ++ v) PREFIX_DIRS r6 with
  | none => none
  | some r7 =>
  let s8 := emitLoop env (fun v => epVal ++ v) EXEC_DIRS r7.2
  let s9 := emitLoop env (fun v => epVal ++ v ++ qual) LIB_DIRS s8
  let g4 := EnvVar.get env s9 DATADIR
  match mapIndex r7.1 DATAROOTDIR with
  | none => none
  | some dr0 =>
  let dir4 := mapInsert r7.1 DATADIR (EnvVar.or_from g4.1 dr0)
  match mapIndex dir4 DATADIR with
  | none => none
  | some dd =>
  let s11 := cargoEnv g4.2 dd
  match mapIndex dir4 DATAROOTDIR with
  | none => none
  | some dr1 =>
  match dr1.value with
  | none => none
  | some drVal =>
  match insertEmitLoop env (fun v => drVal ++ v) DATA_DIRS (dir4, s11) with
  | none => none
  | some r12 =>
  some r12.2

/-- Value emitted for a given variable name, when present. -/
def findVal : List EnvVar → String → Option String
  | [], _ => none
  | v :: rest, k => if v.key == k then v.value else findVal rest k

/-- Resolved value of a directory key in a finished run. -/
def resolvedOf (st : BuildState) (key : String) : Option String :=
  findVal st.emitted key

/-- The sixteen recognized directory variable names, as listed by the
specification. -/
def DIR_VAR_NAMES : List String :=
  [PREFIX, EXEC_PREFIX, BINDIR, DATADIR, DATAROOTDIR, DOCDIR, INCLUDEDIR,
   INFODIR, LIBEXECDIR, LIBDIR, LOCALSTATEDIR, MANDIR, RUNSTATEDIR, SBINDIR,
   SHAREDSTATEDIR, SYSCONFDIR]

/-- The sequence of environment lookups a successful run performs, oldest
first (proved below to be the trace of every successful run). -/
def FULL_TRACE : List String :=
  [PREFIX, EXEC_PREFIX, CARGO_CFG_TARGET_POINTER_WIDTH, RUNSTATEDIR,
   DATAROOTDIR, INCLUDEDIR, LOCALSTATEDIR, SHAREDSTATEDIR, SYSCONFDIR,
   BINDIR, LIBEXECDIR, SBINDIR, LIBDIR, DATADIR, DOCDIR, INFODIR, MANDIR]

/-- Closed form of the emissions of a successful run with pointer-width
string x parsing to n: proved below to be the emitted list of every
successful run of install_dirs. -/
def emittedModel (env : String → Option String) (x : String) (n : Int) :
    List EnvVar :=
  let p := (env PREFIX).getD DEFAULT_PREFIX
  let e := (env EXEC_PREFIX).getD p
  let dr := (env DATAROOTDIR).getD (p ++ "/share")
  let q := if 64 ≤ n then x else ""
  [⟨PREFIX, some p⟩,
   ⟨EXEC_PREFIX, some e⟩,
   ⟨RUNSTATEDIR, some ((env RUNSTATEDIR).getD "/run")⟩,
   ⟨DATAROOTDIR, some dr⟩,
   ⟨INCLUDEDIR, some ((env INCLUDEDIR).getD (p ++ "/include"))⟩,
   ⟨LOCALSTATEDIR, some ((env LOCALSTATEDIR).getD (p ++ "/var"))⟩,
   ⟨SHAREDSTATEDIR, some ((env SHAREDSTATEDIR).getD (p ++ "/var/lib"))⟩,
   ⟨SYSCONFDIR, some ((env SYSCONFDIR).getD (p ++ "/etc"))⟩,
   ⟨BINDIR, some ((env BINDIR).getD (e ++ "/bin"))⟩,
   ⟨LIBEXECDIR, some ((env LIBEXECDIR).getD (e ++ "/libexec"))⟩,
   ⟨SBINDIR, some ((env SBINDIR).getD (e ++ "/sbin"))⟩,
   ⟨LIBDIR, some ((env LIBDIR).getD (e ++ "/lib" ++ q))⟩,
   ⟨DATADIR, some ((env DATADIR).getD dr)⟩,
   ⟨DOCDIR, some ((env DOCDIR).getD (dr ++ "/doc"))⟩,
   ⟨INFODIR, some ((env INFODIR).getD (dr ++ "/info"))⟩,
   ⟨MANDIR, some ((env MANDIR).getD (dr ++ "/man"))⟩]

theorem EnvVar.or_eq (e : EnvVar) (d : String) :
    EnvVar.or e d = ⟨e.key, some (e.value.getD d)⟩ := by
  cases e with
  | mk k v => cases v <;> rfl

theorem EnvVar.or_from_eq (e o : EnvVar) :
    EnvVar.or_from e o = ⟨e.key, e.value.or o.value⟩ := by
  cases e with
  | mk k v => cases v <;> rfl

theorem opt_or_some {α : Type} (x : Option α) (d : α) :
    x.or (some d) = some (x.getD d) := by
  cases x <;> rfl

/-- Characterization of every successful run of install_dirs: when the
pointer width is present and parses as an i32, the run succeeds, performs
the lookups of FULL_TRACE in order, and emits exactly the list
emittedModel. -/
theorem install_dirs_eq (env : String → Option String) (x : String) (n : Int)
    (hx : env CARGO_CFG_TARGET_POINTER_WIDTH = some x)
    (hn : parseI32 x = some n) :
    install_dirs env = some ⟨FULL_TRACE, emittedModel env x n⟩ := by
  have hx' : env "CARGO_CFG_TARGET_POINTER_WIDTH" = some x := hx
  simp [install_dirs, EnvVar.get, insertEmitLoop, emitLoop, cargoEnv,
        mapInsert, mapIndex, EnvVar.or_eq, EnvVar.or_from_eq, opt_or_some,
        ROOT_DIRS, PREFIX_DIRS, EXEC_DIRS, LIB_DIRS, DATA_DIRS,
        emittedModel, FULL_TRACE, hx', hn,
        CARGO_CFG_TARGET_POINTER_WIDTH, DEFAULT_PREFIX, PREFIX, EXEC_PREFIX,
        BINDIR, DATADIR, DATAROOTDIR, DOCDIR, INCLUDEDIR, INFODIR,
        LIBEXECDIR, LIBDIR, LOCALSTATEDIR, MANDIR, RUNSTATEDIR, SBINDIR,
        SHAREDSTATEDIR, SYSCONFDIR]

/-- A run with no pointer width in the environment panics before emitting
anything. -/
theorem install_dirs_no_width (env : String → Option String)
    (hx : env CARGO_CFG_TARGET_POINTER_WIDTH = none) :
    install_dirs env = none := by
  simp [install_dirs, EnvVar.get, mapInsert, mapIndex, EnvVar.or_eq,
        EnvVar.or_from_eq, hx]

/-- A run whose pointer width does not parse as an i32 panics before
emitting anything. -/
theorem install_dirs_bad_width (env : String → Option String) (x : String)
    (hx : env CARGO_CFG_TARGET_POINTER_WIDTH = some x)
    (hn : parseI32 x = none) :
    install_dirs env = none := by
  simp [install_dirs, EnvVar.get, mapInsert, mapIndex, EnvVar.or_eq,
        EnvVar.or_from_eq, hx, hn]

/-- Inversion for a successful run: the pointer width was present and
parsed, and the final state is the one of install_dirs_eq. -/
theorem install_dirs_some_inv (env : String → Option String) (s : BuildState)
    (hs : install_dirs env = some s) :
    ∃ x n, env CARGO_CFG_TARGET_POINTER_WIDTH = some x ∧ parseI32 x = some n ∧
      s = ⟨FULL_TRACE, emittedModel env x n⟩ := by
  cases hx : env CARGO_CFG_TARGET_POINTER_WIDTH with
  | none =>
    rw [install_dirs_no_width env hx] at hs
    exact absurd hs (by simp)
  | some x =>
    cases hn : parseI32 x with
    | none =>
      rw [install_dirs_bad_width env x hx hn] at hs
      exact absurd hs (by simp)
    | some n =>
      refine ⟨x, n, rfl, hn, ?_⟩
      rw [install_dirs_eq env x n hx hn] at hs
      simp only [Option.some.injEq] at hs
      exact hs.symm

/-- Resolved installation root of an environment, in derived form. -/
def rootVal (env : String → Option String) : String :=
  (env PREFIX).getD DEFAULT_PREFIX

/-- Resolved executable root of an environment, in derived form. -/
def execVal (env : String → Option String) : String :=
  (env EXEC_PREFIX).getD (rootVal env)

/-- Resolved data root of an environment, in derived form. -/
def drootVal (env : String → Option String) : String :=
  (env DATAROOTDIR).getD (rootVal env ++ "/share")

theorem resolved_PREFIX (env : String → Option String) (x : String) (n : Int) :
    resolvedOf ⟨FULL_TRACE, emittedModel env x n⟩ PREFIX =
      some (rootVal env) := by
  simp [resolvedOf, findVal, emittedModel, rootVal, PREFIX, EXEC_PREFIX]

theorem resolved_EXEC_PREFIX (env : String → Option String) (x : String) (n : Int) :
    resolvedOf ⟨FULL_TRACE, emittedModel env x n⟩ EXEC_PREFIX =
      some (execVal env) := by
  simp [resolvedOf, findVal, emittedModel, rootVal, execVal, PREFIX, EXEC_PREFIX]

theorem resolved_RUNSTATEDIR (env : String → Option String) (x : String) (n : Int) :
    resolvedOf ⟨FULL_TRACE, emittedModel env x n⟩ RUNSTATEDIR =
      some ((env RUNSTATEDIR).getD "/run") := by
  simp [resolvedOf, findVal, emittedModel, PREFIX, EXEC_PREFIX, RUNSTATEDIR]

theorem resolved_DATAROOTDIR (env : String → Option String) (x : String) (n : Int) :
    resolvedOf ⟨FULL_TRACE, emittedModel env x n⟩ DATAROOTDIR =
      some (drootVal env) := by
  simp [resolvedOf, findVal, emittedModel, rootVal, drootVal, PREFIX,
        EXEC_PREFIX, RUNSTATEDIR, DATAROOTDIR]

theorem resolved_INCLUDEDIR (env : String → Option String) (x : String) (n : Int) :
    resolvedOf ⟨FULL_TRACE, emittedModel env x n⟩ INCLUDEDIR =
      some ((env INCLUDEDIR).getD (rootVal env ++ "/include")) := by
  simp [resolvedOf, findVal, emittedModel, rootVal, PREFIX, EXEC_PREFIX,
        RUNSTATEDIR, DATAROOTDIR, INCLUDEDIR]

theorem resolved_LOCALSTATEDIR (env : String → Option String) (x : String) (n : Int) :
    resolvedOf ⟨FULL_TRACE, emittedModel env x n⟩ LOCALSTATEDIR =
      some ((env LOCALSTATEDIR).getD (rootVal env ++ "/var")) := by
  simp [resolvedOf, findVal, emittedModel, rootVal, PREFIX, EXEC_PREFIX,
        RUNSTATEDIR, DATAROOTDIR, INCLUDEDIR, LOCALSTATEDIR]

theorem resolved_SHAREDSTATEDIR (env : String → Option String) (x : String) (n : Int) :
    resolvedOf ⟨FULL_TRACE, emittedModel env x n⟩ SHAREDSTATEDIR =
      some ((env SHAREDSTATEDIR).getD (rootVal env ++ "/var/lib")) := by
  simp [resolvedOf, findVal, emittedModel, rootVal, PREFIX, EXEC_PREFIX,
        RUNSTATEDIR, DATAROOTDIR, INCLUDEDIR, LOCALSTATEDIR, SHAREDSTATEDIR]

theorem resolved_SYSCONFDIR (env : String → Option String) (x : String) (n : Int) :
    resolvedOf ⟨FULL_TRACE, emittedModel env x n⟩ SYSCONFDIR =
      some ((env SYSCONFDIR).getD (rootVal env ++ "/etc")) := by
  simp [resolvedOf, findVal, emittedModel, rootVal, PREFIX, EXEC_PREFIX,
        RUNSTATEDIR, DATAROOTDIR, INCLUDEDIR, LOCALSTATEDIR, SHAREDSTATEDIR,
        SYSCONFDIR]

theorem resolved_BINDIR (env : String → Option String) (x : String) (n : Int) :
    resolvedOf ⟨FULL_TRACE, emittedModel env x n⟩ BINDIR =
      some ((env BINDIR).getD (execVal env ++ "/bin")) := by
  simp [resolvedOf, findVal, emittedModel, rootVal, execVal, PREFIX,
        EXEC_PREFIX, RUNSTATEDIR, DATAROOTDIR, INCLUDEDIR, LOCALSTATEDIR,
        SHAREDSTATEDIR, SYSCONFDIR, BINDIR]

theorem resolved_LIBEXECDIR (env : String → Option String) (x : String) (n : Int) :
    resolvedOf ⟨FULL_TRACE, emittedModel env x n⟩ LIBEXECDIR =
      some ((env LIBEXECDIR).getD (execVal env ++ "/libexec")) := by
  simp [resolvedOf, findVal, emittedModel, rootVal, execVal, PREFIX,
        EXEC_PREFIX, RUNSTATEDIR, DATAROOTDIR, INCLUDEDIR, LOCALSTATEDIR,
        SHAREDSTATEDIR, SYSCONFDIR, BINDIR, LIBEXECDIR]

theorem resolved_SBINDIR (env : String → Option String) (x : String) (n : Int) :
    resolvedOf ⟨FULL_TRACE, emittedModel env x n⟩ SBINDIR =
      some ((env SBINDIR).getD (execVal env ++ "/sbin")) := by
  simp [resolvedOf, findVal, emittedModel, rootVal, execVal, PREFIX,
        EXEC_PREFIX, RUNSTATEDIR, DATAROOTDIR, INCLUDEDIR, LOCALSTATEDIR,
        SHAREDSTATEDIR, SYSCONFDIR, BINDIR, LIBEXECDIR, SBINDIR]

theorem resolved_LIBDIR (env : String → Option String) (x : String) (n : Int) :
    resolvedOf ⟨FULL_TRACE, emittedModel env x n⟩ LIBDIR =
      some ((env LIBDIR).getD
        (execVal env ++ "/lib" ++ (if 64 ≤ n then x else ""))) := by
  simp [resolvedOf, findVal, emittedModel, rootVal, execVal, PREFIX,
        EXEC_PREFIX, RUNSTATEDIR, DATAROOTDIR, INCLUDEDIR, LOCALSTATEDIR,
        SHAREDSTATEDIR, SYSCONFDIR, BINDIR, LIBEXECDIR, SBINDIR, LIBDIR]

theorem resolved_DATADIR (env : String → Option String) (x : String) (n : Int) :
    resolvedOf ⟨FULL_TRACE, emittedModel env x n⟩ DATADIR =
      some ((env DATADIR).getD (drootVal env)) := by
  simp [resolvedOf, findVal, emittedModel, rootVal, drootVal, PREFIX,
        EXEC_PREFIX, RUNSTATEDIR, DATAROOTDIR, INCLUDEDIR, LOCALSTATEDIR,
        SHAREDSTATEDIR, SYSCONFDIR, BINDIR, LIBEXECDIR, SBINDIR, LIBDIR,
        DATADIR]

theorem resolved_DOCDIR (env : String → Option String) (x : String) (n : Int) :
    resolvedOf ⟨FULL_TRACE, emittedModel env x n⟩ DOCDIR =
      some ((env DOCDIR).getD (drootVal env ++ "/doc")) := by
  simp [resolvedOf, findVal, emittedModel, rootVal, drootVal, PREFIX,
        EXEC_PREFIX, RUNSTATEDIR, DATAROOTDIR, INCLUDEDIR, LOCALSTATEDIR,
        SHAREDSTATEDIR, SYSCONFDIR, BINDIR, LIBEXECDIR, SBINDIR, LIBDIR,
        DATADIR, DOCDIR]

theorem resolved_INFODIR (env : String → Option String) (x : String) (n : Int) :
    resolvedOf ⟨FULL_TRACE, emittedModel env x n⟩ INFODIR =
      some ((env INFODIR).getD (drootVal env ++ "/info")) := by
  simp [resolvedOf, findVal, emittedModel, rootVal, drootVal, PREFIX,
        EXEC_PREFIX, RUNSTATEDIR, DATAROOTDIR, INCLUDEDIR, LOCALSTATEDIR,
        SHAREDSTATEDIR, SYSCONFDIR, BINDIR, LIBEXECDIR, SBINDIR, LIBDIR,
        DATADIR, DOCDIR, INFODIR]

theorem resolved_MANDIR (env : String → Option String) (x : String) (n : Int) :
    resolvedOf ⟨FULL_TRACE, emittedModel env x n⟩ MANDIR =
      some ((env MANDIR).getD (drootVal env ++ "/man")) := by
  simp [resolvedOf, findVal, emittedModel, rootVal, drootVal, PREFIX,
        EXEC_PREFIX, RUNSTATEDIR, DATAROOTDIR, INCLUDEDIR, LOCALSTATEDIR,
        SHAREDSTATEDIR, SYSCONFDIR, BINDIR, LIBEXECDIR, SBINDIR, LIBDIR,
        DATADIR, DOCDIR, INFODIR, MANDIR]

/-- Build environment with pointer width 64 and nothing else set. -/
def env64 : String → Option String := fun k =>
  if k == CARGO_CFG_TARGET_POINTER_WIDTH then some "64" else none

/-- Build environment with pointer width 32 and nothing else set. -/
def env32 : String → Option String := fun k =>
  if k == CARGO_CFG_TARGET_POINTER_WIDTH then some "32" else none

/-- Build environment with pointer width 64 and PREFIX set to /opt. -/
def envOpt : String → Option String := fun k =>
  if k == CARGO_CFG_TARGET_POINTER_WIDTH then some "64"
  else if k == PREFIX then some "/opt" else none

/-- Build environment with pointer width 64 and BINDIR overridden. -/
def envBin : String → Option String := fun k =>
  if k == CARGO_CFG_TARGET_POINTER_WIDTH then some "64"
  else if k == BINDIR then some "/custom/bin" else none

/-- Build environment whose pointer width lies outside the i32 range. -/
def envBig : String → Option String := fun k =>
  if k == CARGO_CFG_TARGET_POINTER_WIDTH then some "4294967296" else none

/-- Build environment with a negative pointer width. -/
def envNeg : String → Option String := fun k =>
  if k == CARGO_CFG_TARGET_POINTER_WIDTH then some "-1" else none

theorem install_dirs_env64 :
    install_dirs env64 = some ⟨FULL_TRACE, emittedModel env64 "64" 64⟩ :=
  install_dirs_eq env64 "64" 64 rfl (by decide)

theorem install_dirs_env32 :
    install_dirs env32 = some ⟨FULL_TRACE, emittedModel env32 "32" 32⟩ :=
  install_dirs_eq env32 "32" 32 rfl (by decide)

theorem install_dirs_envOpt :
    install_dirs envOpt = some ⟨FULL_TRACE, emittedModel envOpt "64" 64⟩ :=
  install_dirs_eq envOpt "64" 64 rfl (by decide)

theorem install_dirs_envBin :
    install_dirs envBin = some ⟨FULL_TRACE, emittedModel envBin "64" 64⟩ :=
  install_dirs_eq envBin "64" 64 rfl (by decide)

theorem install_dirs_envNeg :
    install_dirs envNeg = some ⟨FULL_TRACE, emittedModel envNeg "-1" (-1)⟩ :=
  install_dirs_eq envNeg "-1" (-1) rfl (by decide)

/-- C1: Override propagation: in every successful run, every derived key
whose own override is absent is resolved from the already-resolved
(post-override) value of its parent key, never from the parent's raw
default: exec_prefix inherits the resolved prefix verbatim (so a PREFIX
override propagates into exec_prefix), the five prefix-derived keys
concatenate the resolved prefix with their suffix, datadir inherits the
resolved datarootdir verbatim, the three datarootdir-derived keys
concatenate the resolved datarootdir with their suffix, and the three
exec_prefix-derived keys and libdir concatenate the resolved exec_prefix
with their suffix (and, for libdir, the pointer-width qualifier) — hence
a PREFIX override propagates into exec_prefix and every
exec_prefix-derived key. -/
theorem c1_override_propagation (env : String → Option String)
    (s : BuildState) (x : String) (n : Int)
    (hx : env CARGO_CFG_TARGET_POINTER_WIDTH = some x)
    (hn : parseI32 x = some n)
    (hs : install_dirs env = some s) :
    (env EXEC_PREFIX = none →
      resolvedOf s EXEC_PREFIX = resolvedOf s PREFIX) ∧
    (∀ p, env PREFIX = some p → env EXEC_PREFIX = none →
      resolvedOf s EXEC_PREFIX = some p) ∧
    (∀ p, resolvedOf s PREFIX = some p →
      (env DATAROOTDIR = none →
        resolvedOf s DATAROOTDIR = some (p ++ "/share")) ∧
      (env INCLUDEDIR = none →
        resolvedOf s INCLUDEDIR = some (p ++ "/include")) ∧
      (env LOCALSTATEDIR = none →
        resolvedOf s LOCALSTATEDIR = some (p ++ "/var")) ∧
      (env SHAREDSTATEDIR = none →
        resolvedOf s SHAREDSTATEDIR = some (p ++ "/var/lib")) ∧
      (env SYSCONFDIR = none →
        resolvedOf s SYSCONFDIR = some (p ++ "/etc"))) ∧
    (env DATADIR = none →
      resolvedOf s DATADIR = resolvedOf s DATAROOTDIR) ∧
    (∀ d, resolvedOf s DATAROOTDIR = some d →
      (env DOCDIR = none → resolvedOf s DOCDIR = some (d ++ "/doc")) ∧
      (env INFODIR = none → resolvedOf s INFODIR = some (d ++ "/info")) ∧
      (env MANDIR = none → resolvedOf s MANDIR = some (d ++ "/man"))) ∧
    (∀ e, resolvedOf s EXEC_PREFIX = some e →
      (env BINDIR = none → resolvedOf s BINDIR = some (e ++ "/bin")) ∧
      (env LIBEXECDIR = none →
        resolvedOf s LIBEXECDIR = some (e ++ "/libexec")) ∧
      (env SBINDIR = none → resolvedOf s SBINDIR = some (e ++ "/sbin")) ∧
      (env LIBDIR = none →
        resolvedOf s LIBDIR =
          some (e ++ "/lib" ++ (if 64 ≤ n then x else "")))) := by
  obtain ⟨x', n', hx', hn', rfl⟩ := install_dirs_some_inv env s hs
  rw [hx] at hx'
  obtain rfl : x' = x := (Option.some_inj.mp hx').symm
  rw [hn] at hn'
  obtain rfl : n' = n := (Option.some_inj.mp hn').symm
  refine ⟨?_, ?_, ?_, ?_, ?_, ?_⟩
  · intro hep
    rw [resolved_EXEC_PREFIX, resolved_PREFIX]
    simp [execVal, hep]
  · intro p hp hep
    rw [resolved_EXEC_PREFIX]
    simp [execVal, rootVal, hp, hep]
  · intro p hp
    rw [resolved_PREFIX] at hp
    obtain rfl : p = rootVal env := (Option.some_inj.mp hp).symm
    refine ⟨?_, ?_, ?_, ?_, ?_⟩ <;> intro h
    · rw [resolved_DATAROOTDIR]
      simp [drootVal, h]
    · rw [resolved_INCLUDEDIR]
      simp [h]
    · rw [resolved_LOCALSTATEDIR]
      simp [h]
    · rw [resolved_SHAREDSTATEDIR]
      simp [h]
    · rw [resolved_SYSCONFDIR]
      simp [h]
  · intro hd
    rw [resolved_DATADIR, resolved_DATAROOTDIR]
    simp [hd]
  · intro d hd
    rw [resolved_DATAROOTDIR] at hd
    obtain rfl : d = drootVal env := (Option.some_inj.mp hd).symm
    refine ⟨?_, ?_, ?_⟩ <;> intro h
    · rw [resolved_DOCDIR]
      simp [h]
    · rw [resolved_INFODIR]
      simp [h]
    · rw [resolved_MANDIR]
      simp [h]
  · intro e he
    rw [resolved_EXEC_PREFIX] at he
    obtain rfl : e = execVal env := (Option.some_inj.mp he).symm
    refine ⟨?_, ?_, ?_, ?_⟩ <;> intro h
    · rw [resolved_BINDIR]
      simp [h]
    · rw [resolved_LIBEXECDIR]
      simp [h]
    · rw [resolved_SBINDIR]
      simp [h]
    · rw [resolved_LIBDIR]
      simp [h]

theorem c1_override_propagation_w :
    (resolvedOf ⟨FULL_TRACE, emittedModel envOpt "64" 64⟩ EXEC_PREFIX =
      resolvedOf ⟨FULL_TRACE, emittedModel envOpt "64" 64⟩ PREFIX) ∧
    resolvedOf ⟨FULL_TRACE, emittedModel envOpt "64" 64⟩ EXEC_PREFIX =
      some "/opt" ∧
    resolvedOf ⟨FULL_TRACE, emittedModel envOpt "64" 64⟩ DATAROOTDIR =
      some ("/opt" ++ "/share") ∧
    resolvedOf ⟨FULL_TRACE, emittedModel envOpt "64" 64⟩ DATADIR =
      resolvedOf ⟨FULL_TRACE, emittedModel envOpt "64" 64⟩ DATAROOTDIR ∧
    resolvedOf ⟨FULL_TRACE, emittedModel envOpt "64" 64⟩ MANDIR =
      some ("/opt/share" ++ "/man") ∧
    resolvedOf ⟨FULL_TRACE, emittedModel envOpt "64" 64⟩ BINDIR =
      some ("/opt" ++ "/bin") ∧
    resolvedOf ⟨FULL_TRACE, emittedModel envOpt "64" 64⟩ LIBDIR =
      some ("/opt" ++ "/lib" ++ (if (64 : Int) ≤ 64 then "64" else "")) := by
  have h := c1_override_propagation envOpt
    ⟨FULL_TRACE, emittedModel envOpt "64" 64⟩ "64" 64 rfl (by decide)
    install_dirs_envOpt
  refine ⟨h.1 rfl, h.2.1 "/opt" rfl rfl, ?_, h.2.2.2.1 rfl, ?_, ?_, ?_⟩
  · exact (h.2.2.1 "/opt" (by decide)).1 rfl
  · exact (h.2.2.2.2.1 "/opt/share" (by decide)).2.2 rfl
  · exact (h.2.2.2.2.2 "/opt" (by decide)).1 rfl
  · exact (h.2.2.2.2.2 "/opt" (by decide)).2.2.2 rfl

/-- C2: Override precedence: for every directory key among the sixteen
recognized variable names, when the environment yields a value for that
name, the resolved output of every successful run for that key is that
string verbatim, whatever the rest of the environment yields. -/
theorem c2_override_precedence (env : String → Option String)
    (s : BuildState) (key v : String)
    (hk : key ∈ DIR_VAR_NAMES) (hv : env key = some v)
    (hs : install_dirs env = some s) :
    resolvedOf s key = some v := by
  obtain ⟨x, n, hx, hn, rfl⟩ := install_dirs_some_inv env s hs
  simp only [DIR_VAR_NAMES] at hk
  fin_cases hk <;>
    simp_all [resolvedOf, findVal, emittedModel, PREFIX, EXEC_PREFIX,
              BINDIR, DATADIR, DATAROOTDIR, DOCDIR, INCLUDEDIR, INFODIR,
              LIBEXECDIR, LIBDIR, LOCALSTATEDIR, MANDIR, RUNSTATEDIR,
              SBINDIR, SHAREDSTATEDIR, SYSCONFDIR]

theorem c2_override_precedence_w :
    BINDIR ∈ DIR_VAR_NAMES ∧ envBin BINDIR = some "/custom/bin" ∧
    resolvedOf ⟨FULL_TRACE, emittedModel envBin "64" 64⟩ BINDIR =
      some "/custom/bin" :=
  ⟨by decide, rfl,
   c2_override_precedence envBin ⟨FULL_TRACE, emittedModel envBin "64" 64⟩
     BINDIR "/custom/bin" (by decide) rfl install_dirs_envBin⟩

/-- C3: libdir rule: when the environment supplies no LIBDIR override, the
resolved libdir of every successful run is the resolved exec_prefix
concatenated with /lib and a pointer-width qualifier, the qualifier being
the pointer-width string itself when its parsed value is at least 64 and
the empty string otherwise. -/
theorem c3_libdir_rule (env : String → Option String) (s : BuildState)
    (x e : String) (n : Int)
    (hl : env LIBDIR = none)
    (hx : env CARGO_CFG_TARGET_POINTER_WIDTH = some x)
    (hn : parseI32 x = some n)
    (hs : install_dirs env = some s)
    (he : resolvedOf s EXEC_PREFIX = some e) :
    resolvedOf s LIBDIR = some (e ++ "/lib" ++ (if 64 ≤ n then x else "")) := by
  obtain ⟨x', n', hx', hn', rfl⟩ := install_dirs_some_inv env s hs
  rw [hx] at hx'
  obtain rfl : x' = x := (Option.some_inj.mp hx').symm
  rw [hn] at hn'
  obtain rfl : n' = n := (Option.some_inj.mp hn').symm
  rw [resolved_EXEC_PREFIX] at he
  obtain rfl : e = execVal env := (Option.some_inj.mp he).symm
  rw [resolved_LIBDIR]
  simp [hl]

theorem c3_libdir_rule_w :
    (resolvedOf ⟨FULL_TRACE, emittedModel env64 "64" 64⟩ LIBDIR =
      some "/usr/local/lib64") ∧
    (resolvedOf ⟨FULL_TRACE, emittedModel env32 "32" 32⟩ LIBDIR =
      some "/usr/local/lib") := by
  constructor
  · exact (c3_libdir_rule env64 ⟨FULL_TRACE, emittedModel env64 "64" 64⟩
      "64" "/usr/local" 64 rfl rfl (by decide) install_dirs_env64
      (by decide)).trans (by decide)
  · exact (c3_libdir_rule env32 ⟨FULL_TRACE, emittedModel env32 "32" 32⟩
      "32" "/usr/local" 32 rfl rfl (by decide) install_dirs_env32
      (by decide)).trans (by decide)

/-- C4: Sole failure mode with atomicity: a run of install_dirs succeeds
exactly when the environment carries a pointer-width string that parses as
an i32; for every environment the rest of the resolution always succeeds
(absent overrides fall back to defaults), and a failing run returns none,
so no partial mapping is ever produced. -/
theorem c4_sole_failure_mode (env : String → Option String) :
    (install_dirs env).isSome ↔
      ∃ x, env CARGO_CFG_TARGET_POINTER_WIDTH = some x ∧
        (parseI32 x).isSome := by
  cases hx : env CARGO_CFG_TARGET_POINTER_WIDTH with
  | none => simp [install_dirs_no_width env hx]
  | some x =>
    cases hn : parseI32 x with
    | none => simp [install_dirs_bad_width env x hx hn, hn]
    | some n => simp [install_dirs_eq env x n hx hn, hn]

/-- C5: Completeness invariant: every successful run emits exactly one
resolved value for every key of the schema — the sixteen recognized
directory variables, prefix and exec_prefix included — in the emission
order of the script; the emitted key list has no duplicates, every
recognized key resolves to a present string value, and no emitted entry
lacks a value. -/
theorem c5_completeness (env : String → Option String) (s : BuildState)
    (hs : install_dirs env = some s) :
    s.emitted.map EnvVar.key =
      [PREFIX, EXEC_PREFIX, RUNSTATEDIR, DATAROOTDIR, INCLUDEDIR,
       LOCALSTATEDIR, SHAREDSTATEDIR, SYSCONFDIR, BINDIR, LIBEXECDIR,
       SBINDIR, LIBDIR, DATADIR, DOCDIR, INFODIR, MANDIR] ∧
    (s.emitted.map EnvVar.key).Nodup ∧
    (∀ k ∈ DIR_VAR_NAMES, (resolvedOf s k).isSome) ∧
    (∀ v ∈ s.emitted, v.value.isSome) := by
  obtain ⟨x, n, hx, hn, rfl⟩ := install_dirs_some_inv env s hs
  refine ⟨rfl, ?_, ?_, ?_⟩
  · show ((emittedModel env x n).map EnvVar.key).Nodup
    have hmap : (emittedModel env x n).map EnvVar.key =
        [PREFIX, EXEC_PREFIX, RUNSTATEDIR, DATAROOTDIR, INCLUDEDIR,
         LOCALSTATEDIR, SHAREDSTATEDIR, SYSCONFDIR, BINDIR, LIBEXECDIR,
         SBINDIR, LIBDIR, DATADIR, DOCDIR, INFODIR, MANDIR] := rfl
    rw [hmap]
    decide
  · intro k hk
    simp only [DIR_VAR_NAMES] at hk
    fin_cases hk <;>
      simp [resolvedOf, findVal, emittedModel, PREFIX, EXEC_PREFIX,
            BINDIR, DATADIR, DATAROOTDIR, DOCDIR, INCLUDEDIR, INFODIR,
            LIBEXECDIR, LIBDIR, LOCALSTATEDIR, MANDIR, RUNSTATEDIR,
            SBINDIR, SHAREDSTATEDIR, SYSCONFDIR]
  · intro v hv
    simp only [emittedModel] at hv
    fin_cases hv <;> rfl

theorem c5_completeness_w :
    (⟨FULL_TRACE, emittedModel env64 "64" 64⟩ : BuildState).emitted.map
        EnvVar.key =
      [PREFIX, EXEC_PREFIX, RUNSTATEDIR, DATAROOTDIR, INCLUDEDIR,
       LOCALSTATEDIR, SHAREDSTATEDIR, SYSCONFDIR, BINDIR, LIBEXECDIR,
       SBINDIR, LIBDIR, DATADIR, DOCDIR, INFODIR, MANDIR] ∧
    ((⟨FULL_TRACE, emittedModel env64 "64" 64⟩ : BuildState).emitted.map
        EnvVar.key).Nodup :=
  ⟨(c5_completeness env64 ⟨FULL_TRACE, emittedModel env64 "64" 64⟩
      install_dirs_env64).1,
   (c5_completeness env64 ⟨FULL_TRACE, emittedModel env64 "64" 64⟩
      install_dirs_env64).2.1⟩

/-- C6: Prefix-derived defaults: when the environment yields /opt for
PREFIX and nothing for EXEC_PREFIX, DATAROOTDIR, INCLUDEDIR, SYSCONFDIR
and BINDIR, every successful run resolves datarootdir to /opt/share,
includedir to /opt/include, sysconfdir to /opt/etc, exec_prefix to /opt
and bindir to /opt/bin. -/
theorem c6_opt_defaults (env : String → Option String) (s : BuildState)
    (hp : env PREFIX = some "/opt")
    (hep : env EXEC_PREFIX = none) (hdr : env DATAROOTDIR = none)
    (hin : env INCLUDEDIR = none) (hsy : env SYSCONFDIR = none)
    (hb : env BINDIR = none)
    (hs : install_dirs env = some s) :
    resolvedOf s DATAROOTDIR = some "/opt/share" ∧
    resolvedOf s INCLUDEDIR = some "/opt/include" ∧
    resolvedOf s SYSCONFDIR = some "/opt/etc" ∧
    resolvedOf s EXEC_PREFIX = some "/opt" ∧
    resolvedOf s BINDIR = some "/opt/bin" := by
  obtain ⟨x, n, hx, hn, rfl⟩ := install_dirs_some_inv env s hs
  refine ⟨?_, ?_, ?_, ?_, ?_⟩
  · rw [resolved_DATAROOTDIR]
    simp [drootVal, rootVal, hp, hdr]
  · rw [resolved_INCLUDEDIR]
    simp [rootVal, hp, hin]
  · rw [resolved_SYSCONFDIR]
    simp [rootVal, hp, hsy]
  · rw [resolved_EXEC_PREFIX]
    simp [execVal, rootVal, hp, hep]
  · rw [resolved_BINDIR]
    simp [execVal, rootVal, hp, hep, hb]

theorem c6_opt_defaults_w :
    resolvedOf ⟨FULL_TRACE, emittedModel envOpt "64" 64⟩ DATAROOTDIR =
      some "/opt/share" ∧
    resolvedOf ⟨FULL_TRACE, emittedModel envOpt "64" 64⟩ INCLUDEDIR =
      some "/opt/include" ∧
    resolvedOf ⟨FULL_TRACE, emittedModel envOpt "64" 64⟩ SYSCONFDIR =
      some "/opt/etc" ∧
    resolvedOf ⟨FULL_TRACE, emittedModel envOpt "64" 64⟩ EXEC_PREFIX =
      some "/opt" ∧
    resolvedOf ⟨FULL_TRACE, emittedModel envOpt "64" 64⟩ BINDIR =
      some "/opt/bin" :=
  c6_opt_defaults envOpt ⟨FULL_TRACE, emittedModel envOpt "64" 64⟩
    rfl rfl rfl rfl rfl rfl install_dirs_envOpt

/-- C7: datadir rule: when the environment supplies no DATADIR override,
the resolved datadir of every successful run equals the resolved
datarootdir value. -/
theorem c7_datadir_rule (env : String → Option String) (s : BuildState)
    (hd : env DATADIR = none) (hs : install_dirs env = some s) :
    resolvedOf s DATADIR = resolvedOf s DATAROOTDIR := by
  obtain ⟨x, n, hx, hn, rfl⟩ := install_dirs_some_inv env s hs
  rw [resolved_DATADIR, resolved_DATAROOTDIR]
  simp [hd]

theorem c7_datadir_rule_w :
    (resolvedOf ⟨FULL_TRACE, emittedModel env64 "64" 64⟩ DATADIR =
      resolvedOf ⟨FULL_TRACE, emittedModel env64 "64" 64⟩ DATAROOTDIR) ∧
    resolvedOf ⟨FULL_TRACE, emittedModel env64 "64" 64⟩ DATADIR =
      some "/usr/local/share" :=
  ⟨c7_datadir_rule env64 ⟨FULL_TRACE, emittedModel env64 "64" 64⟩ rfl
     install_dirs_env64,
   by decide⟩

/-- C8: runstatedir independence: for two environments that agree on every
variable other than PREFIX and EXEC_PREFIX and supply no RUNSTATEDIR
override, both successful runs resolve runstatedir to /run — the PREFIX
and EXEC_PREFIX inputs have no influence on runstatedir. -/
theorem c8_runstatedir_independence (env1 env2 : String → Option String)
    (s1 s2 : BuildState)
    (hagree : ∀ k, k ≠ PREFIX → k ≠ EXEC_PREFIX → env1 k = env2 k)
    (hr : env1 RUNSTATEDIR = none)
    (hs1 : install_dirs env1 = some s1)
    (hs2 : install_dirs env2 = some s2) :
    resolvedOf s1 RUNSTATEDIR = some "/run" ∧
    resolvedOf s2 RUNSTATEDIR = some "/run" := by
  obtain ⟨x1, n1, hx1, hn1, rfl⟩ := install_dirs_some_inv env1 s1 hs1
  obtain ⟨x2, n2, hx2, hn2, rfl⟩ := install_dirs_some_inv env2 s2 hs2
  have hr2 : env2 RUNSTATEDIR = none := by
    rw [← hagree RUNSTATEDIR (by decide) (by decide)]
    exact hr
  constructor
  · rw [resolved_RUNSTATEDIR]
    simp [hr]
  · rw [resolved_RUNSTATEDIR]
    simp [hr2]

theorem c8_runstatedir_independence_w :
    resolvedOf ⟨FULL_TRACE, emittedModel env64 "64" 64⟩ RUNSTATEDIR =
      some "/run" ∧
    resolvedOf ⟨FULL_TRACE, emittedModel envOpt "64" 64⟩ RUNSTATEDIR =
      some "/run" :=
  c8_runstatedir_independence env64 envOpt
    ⟨FULL_TRACE, emittedModel env64 "64" 64⟩
    ⟨FULL_TRACE, emittedModel envOpt "64" 64⟩
    (by
      intro k h1 h2
      simp only [env64, envOpt, PREFIX] at h1 ⊢
      by_cases hc : k = "CARGO_CFG_TARGET_POINTER_WIDTH"
      · simp [hc]
      · simp [hc, h1])
    rfl install_dirs_env64 install_dirs_envOpt

/-- C9 counterexample: on the concrete environment env64 the script
queries BINDIR — an exec_prefix-derived key — strictly before DATADIR and
the datarootdir-derived keys, so the sequence of directory-variable
queries is not the claimed §4.1 order (prefix, exec_prefix, runstatedir,
the five prefix-derived keys, datadir, the three datarootdir-derived
keys, the three exec_prefix-derived keys, libdir): the actual filtered
query order differs from the claimed one, which would put DATADIR before
BINDIR. -/
theorem c9_lookup_order_cex :
    ((install_dirs env64).map fun st =>
        st.trace.filter (fun k => DIR_VAR_NAMES.contains k)) =
      some [PREFIX, EXEC_PREFIX, RUNSTATEDIR, DATAROOTDIR, INCLUDEDIR,
            LOCALSTATEDIR, SHAREDSTATEDIR, SYSCONFDIR, BINDIR, LIBEXECDIR,
            SBINDIR, LIBDIR, DATADIR, DOCDIR, INFODIR, MANDIR] ∧
    [PREFIX, EXEC_PREFIX, RUNSTATEDIR, DATAROOTDIR, INCLUDEDIR,
     LOCALSTATEDIR, SHAREDSTATEDIR, SYSCONFDIR, BINDIR, LIBEXECDIR,
     SBINDIR, LIBDIR, DATADIR, DOCDIR, INFODIR, MANDIR] ≠
      [PREFIX, EXEC_PREFIX, RUNSTATEDIR, DATAROOTDIR, INCLUDEDIR,
       LOCALSTATEDIR, SHAREDSTATEDIR, SYSCONFDIR, DATADIR, DOCDIR,
       INFODIR, MANDIR, BINDIR, LIBEXECDIR, SBINDIR, LIBDIR] ∧
    BINDIR ∈ ([PREFIX, EXEC_PREFIX, RUNSTATEDIR, DATAROOTDIR, INCLUDEDIR,
       LOCALSTATEDIR, SHAREDSTATEDIR, SYSCONFDIR, BINDIR, LIBEXECDIR,
       SBINDIR, LIBDIR] : List String) ∧
    DATADIR ∉ ([PREFIX, EXEC_PREFIX, RUNSTATEDIR, DATAROOTDIR, INCLUDEDIR,
       LOCALSTATEDIR, SHAREDSTATEDIR, SYSCONFDIR, BINDIR, LIBEXECDIR,
       SBINDIR, LIBDIR] : List String) := by
  refine ⟨?_, by decide, by decide, by decide⟩
  rw [install_dirs_env64]
  decide

/-- C9 amended: every successful run of install_dirs queries the
environment exactly once per recognized directory-variable name, and the
queries occur in the order of the code — prefix, exec_prefix, the pointer
width, runstatedir, the five prefix-derived keys, the three
exec_prefix-derived keys, libdir, datadir, then the three
datarootdir-derived keys (the list FULL_TRACE). -/
theorem c9_lookup_order (env : String → Option String) (s : BuildState)
    (hs : install_dirs env = some s) :
    s.trace = FULL_TRACE ∧ ∀ k ∈ DIR_VAR_NAMES, s.trace.count k = 1 := by
  obtain ⟨x, n, hx, hn, rfl⟩ := install_dirs_some_inv env s hs
  refine ⟨rfl, ?_⟩
  show ∀ k ∈ DIR_VAR_NAMES, FULL_TRACE.count k = 1
  decide

theorem c9_lookup_order_w :
    (⟨FULL_TRACE, emittedModel env64 "64" 64⟩ : BuildState).trace =
      FULL_TRACE ∧
    ∀ k ∈ DIR_VAR_NAMES,
      (⟨FULL_TRACE, emittedModel env64 "64" 64⟩ : BuildState).trace.count
        k = 1 :=
  c9_lookup_order env64 ⟨FULL_TRACE, emittedModel env64 "64" 64⟩
    install_dirs_env64

/-- C10: Implicit pointer-width range: the pointer-width string is parsed
as a signed 32-bit integer, so a numeric string whose denoted integer
lies outside -2147483648..2147483647 makes the run fail even though the
string denotes an integer, while a numeric string with negative value
parses and leaves the library-directory qualifier empty, giving libdir
the plain /lib suffix. -/
theorem c10_i32_range (env : String → Option String) (x : String) (v : Int)
    (hx : env CARGO_CFG_TARGET_POINTER_WIDTH = some x)
    (hv : strIntValue x = some v) :
    ((v < -2147483648 ∨ 2147483647 < v) → install_dirs env = none) ∧
    (∀ s e, install_dirs env = some s → v < 0 →
      env LIBDIR = none → resolvedOf s EXEC_PREFIX = some e →
      resolvedOf s LIBDIR = some (e ++ "/lib")) := by
  constructor
  · intro hrange
    apply install_dirs_bad_width env x hx
    unfold parseI32
    rw [hv, Option.some_bind,
        if_neg (by omega : ¬(-2147483648 ≤ v ∧ v ≤ 2147483647))]
  · intro s e hs hneg hl he
    obtain ⟨x', n', hx', hn', rfl⟩ := install_dirs_some_inv env s hs
    rw [hx] at hx'
    obtain rfl : x' = x := (Option.some_inj.mp hx').symm
    have hn : n' = v := by
      unfold parseI32 at hn'
      rw [hv, Option.some_bind] at hn'
      by_cases hc : (-2147483648 ≤ v ∧ v ≤ 2147483647)
      · rw [if_pos hc] at hn'
        exact (Option.some_inj.mp hn').symm
      · rw [if_neg hc] at hn'
        exact absurd hn' (by simp)
    rw [resolved_EXEC_PREFIX] at he
    obtain rfl : e = execVal env := (Option.some_inj.mp he).symm
    rw [resolved_LIBDIR]
    rw [if_neg (by omega : ¬(64 : Int) ≤ n')]
    simp [hl, String.append_empty]

theorem c10_i32_range_w :
    install_dirs envBig = none ∧
    resolvedOf ⟨FULL_TRACE, emittedModel envNeg "-1" (-1)⟩ LIBDIR =
      some "/usr/local/lib" :=
  ⟨(c10_i32_range envBig "4294967296" 4294967296 rfl (by decide)).1
     (by decide),
   ((c10_i32_range envNeg "-1" (-1) rfl (by decide)).2
      ⟨FULL_TRACE, emittedModel envNeg "-1" (-1)⟩ "/usr/local"
      install_dirs_envNeg (by decide) rfl (by decide)).trans (by decide)⟩

end Gitrs
